import Mathlib

set_option maxRecDepth 20000

/-!
Verification of the resume-to-LaTeX generator in `src/resume2latex.py`.

Python strings are modelled as `List Char`. Python `str.replace` with a
single-character pattern, `re` scans with single-character lookarounds, and
f-string templates are embedded as executable functions on char lists. Literal
braces inside Lean string literals are written with the hex escapes `\x7b`
and `\x7d`.
-/

namespace Resume2Latex

/-- Whether `pat` occurs at the start of `l` (Python `str.startswith`). -/
def startsWith : List Char → List Char → Bool
  | [], _ => true
  | _ :: _, [] => false
  | p :: ps, x :: xs => p == x && startsWith ps xs

/-- Number of positions of `l` at which `pat` occurs. -/
def countSubstr (pat : List Char) : List Char → Nat
  | [] => 0
  | x :: rest => (if startsWith pat (x :: rest) then 1 else 0) + countSubstr pat rest

/-- Number of occurrences of the character `c` in `l` (Python `str.count`). -/
def countChar (c : Char) : List Char → Nat
  | [] => 0
  | x :: rest => (if x == c then 1 else 0) + countChar c rest

/-- Index of the first occurrence of `pat`, if any (Python `str.find`,
with `none` playing the role of `-1`). -/
def findSubstr (pat : List Char) : List Char → Option Nat
  | [] => if startsWith pat [] then some 0 else none
  | x :: rest =>
    if startsWith pat (x :: rest) then some 0
    else (findSubstr pat rest).map (fun n => n + 1)

/-- Concatenation of a list of char lists. -/
def concatAll : List (List Char) → List Char
  | [] => []
  | x :: rest => x ++ concatAll rest

/-- Python `sep.join(parts)`. -/
def joinSep (sep : List Char) : List (List Char) → List Char
  | [] => []
  | [x] => x
  | x :: rest => x ++ sep ++ joinSep sep rest

/-- Split on newline characters; the separators are dropped, empty segments
are kept, so `joinSep` with a newline separator is a left inverse. -/
def splitOnNl : List Char → List (List Char)
  | [] => [[]]
  | c :: rest =>
    let gs := splitOnNl rest
    if c = '\n' then [] :: gs
    else
      match gs with
      | [] => [[c]]
      | g :: gt => (c :: g) :: gt

/-- Python `text.replace(c, r)` for a one-character pattern `c`. -/
def replaceChar (c : Char) (r : List Char) : List Char → List Char
  | [] => []
  | x :: rest => (if x == c then r else [x]) ++ replaceChar c r rest

/-- `escape_latex` (src/resume2latex.py lines 21-25): the empty string is
returned unchanged, otherwise the four chained `str.replace` calls are applied
in source order: open brace, close brace, ampersand, percent. -/
def escape_latex (text : List Char) : List Char :=
  if text = [] then []
  else
    replaceChar '%' ['\\', '%']
      (replaceChar '&' ['\\', '&']
        (replaceChar '\x7d' ['\\', '\x7d']
          (replaceChar '\x7b' ['\\', '\x7b'] text)))

/-- `escape_latex` on an optional value: Python `if not text: return ""`
also maps an absent (`None`) argument to the empty string. -/
def escape_latex_opt : Option (List Char) → List Char
  | none => []
  | some s => escape_latex s

/-- The four characters that `escape_latex` actually rewrites. -/
def isSpecialChar (x : Char) : Bool :=
  x == '\x7b' || x == '\x7d' || x == '&' || x == '%'

/-- Per-character view of the escaping: a special character becomes a
backslash-prefixed pair, every other character is untouched. -/
def escChar (x : Char) : List Char :=
  if isSpecialChar x then ['\\', x] else [x]

/-- The escaping applied character by character. -/
def escapeAll : List Char → List Char
  | [] => []
  | x :: rest => escChar x ++ escapeAll rest

/-- The chain of the four `replace` passes without the empty-string guard. -/
def escapeChain (text : List Char) : List Char :=
  replaceChar '%' ['\\', '%']
    (replaceChar '&' ['\\', '&']
      (replaceChar '\x7d' ['\\', '\x7d']
        (replaceChar '\x7b' ['\\', '\x7b'] text)))

/-- Position `i` of `l` holds the character `c` and is not immediately
preceded by a backslash: the semantics of the regex lookbehind scan
`(?<!\\)c` at one position. -/
def unescapedAt (c : Char) (l : List Char) (i : Nat) : Bool :=
  l.getD i ' ' == c && (i == 0 || !(l.getD (i - 1) ' ' == '\\'))

/-- Number of matches of `(?<!\\)c` in `l` (Python `re.findall` length). -/
def countUnescaped (c : Char) (l : List Char) : Nat :=
  ((List.range l.length).filter (unescapedAt c l)).length

/-! ## Data model

The input record consumed by the generator, mirroring the JSON structure the
builders access (`resume_data['personal_info']['name']`, ...).  A project's
`description` key is genuinely optional in the source (`if 'description' in
project`), so it is modelled as an `Option`. -/

structure PersonalInfo where
  name : String
  phone : String
  email : String
  location : String
  website : String

structure EducationDetails where
  core_modules : List String
  grade : String

structure Education where
  institution : String
  location : String
  degree : String
  period : String
  details : EducationDetails

structure ExperienceEntry where
  company : String
  location : String
  position : String
  period : String
  description : List String

structure ProjectEntry where
  name : String
  period : String
  description : Option (List String)

structure LanguageEntry where
  language : String
  proficiency : String

structure AdditionalInfo where
  languages : List LanguageEntry
  skills : List String

structure ResumeData where
  personal_info : PersonalInfo
  education : Education
  professional_experience : List ExperienceEntry
  project_experience : List ProjectEntry
  additional_information : AdditionalInfo

/-! ## Section builders (src/resume2latex.py lines 96-368) -/

/-- `generate_latex_header` (lines 96-206): the fixed preamble raw string. -/
def generate_latex_header : List Char :=
("\\documentclass[letterpaper,11pt]\x7barticle\x7d\n\n%---------- PACKAGES ----------\n\\usepackage\x7blatexsym\x7d\n\\usepackage[empty]\x7bfullpage\x7d\n\\usepackage\x7btitlesec\x7d\n\\usepackage\x7btextcomp\x7d  % Alternative to marvosym for symbols\n\\usepackage[usenames,dvipsnames]\x7bcolor\x7d\n\\usepackage\x7btimes\x7d    % main text in Times New Roman\n\\usepackage\x7bverbatim\x7d\n\\usepackage\x7benumitem\x7d\n\\usepackage[hidelinks]\x7bhyperref\x7d\n\\usepackage\x7bfancyhdr\x7d\n\\usepackage[english]\x7bbabel\x7d\n\\usepackage\x7btabularx\x7d\n\\usepackage\x7bhyphenat\x7d\n\n%---------- PAGE SETUP ----------\n\\pagestyle\x7bfancy\x7d\n\\fancyhf\x7b\x7d % clear all header and footer fields\n\\fancyfoot\x7b\x7d\n\\renewcommand\x7b\\headrulewidth\x7d\x7b0pt\x7d\n\\renewcommand\x7b\\footrulewidth\x7d\x7b0pt\x7d\n\n% Adjust margins\n\\addtolength\x7b\\oddsidemargin\x7d\x7b-0.5in\x7d\n\\addtolength\x7b\\evensidemargin\x7d\x7b-0.5in\x7d\n\\addtolength\x7b\\textwidth\x7d\x7b1in\x7d\n\\addtolength\x7b\\topmargin\x7d\x7b-.5in\x7d\n\\addtolength\x7b\\textheight\x7d\x7b1.0in\x7d\n\n").data
  ++ ("\\urlstyle\x7bsame\x7d\n\\raggedbottom\n\\raggedright\n\\setlength\x7b\\tabcolsep\x7d\x7b0in\x7d\n\n%---------- SECTION FORMATTING ----------\n\\titleformat\x7b\\section\x7d\x7b\n  \\vspace\x7b-4pt\x7d\\scshape\\raggedright\\large\n\x7d\x7b\x7d\x7b0em\x7d\x7b\x7d[\\color\x7bblack\x7d\\titlerule \\vspace\x7b-5pt\x7d]\n\n% Ensure that generate pdf is machine readable/ATS parsable\n\\pdfgentounicode=1\n\n%---------- CUSTOM COMMANDS ----------\n\n% Basic item command\n\\newcommand\x7b\\resumeItem\x7d[1]\x7b\n  \\item \\small\x7b #1 \x7d\n\x7d\n\n% Subheading with 4 parameters: company, location, position, date\n\\newcommand\x7b\\resumeSubheading\x7d[4]\x7b\n  \\vspace\x7b-2pt\x7d\\item\n    \\begin\x7btabular*\x7d\x7b0.97\\textwidth\x7d[t]\x7bl@\x7b\\extracolsep\x7b\\fill\x7d\x7dr\x7d\n      \\textbf\x7b#1\x7d & #2 \\\\\n      \x7b\\small #3\x7d & \x7b\\small #4\x7d \\\\\n    \\end\x7btabular*\x7d\\vspace\x7b-7pt\x7d\n\x7d\n\n% Sub-subheading with 2 parameters: title, date\n\\newcommand\x7b\\resumeSubSubheading\x7d[2]\x7b\n    \\vspace\x7b-2pt\x7d\\item\n").data
  ++ ("    \\begin\x7btabular*\x7d\x7b0.97\\textwidth\x7d\x7bl@\x7b\\extracolsep\x7b\\fill\x7d\x7dr\x7d\n      \x7b\\small #1\x7d & \x7b\\small #2\x7d \\\\\n    \\end\x7btabular*\x7d\\vspace\x7b-7pt\x7d\n\x7d\n\n% Education heading with 4 parameters: university, location, degree, date\n\\newcommand\x7b\\resumeEducationHeading\x7d[4]\x7b\n  \\vspace\x7b-2pt\x7d\\item\n    \\begin\x7btabular*\x7d\x7b0.97\\textwidth\x7d[t]\x7bl@\x7b\\extracolsep\x7b\\fill\x7d\x7dr\x7d\n      \\textbf\x7b#1\x7d & #2 \\\\\n      \x7b\\small #3\x7d & \x7b\\small #4\x7d \\\\\n    \\end\x7btabular*\x7d\\vspace\x7b-7pt\x7d\n\x7d\n\n% Project heading with 2 parameters: project name, date\n\\newcommand\x7b\\resumeProjectHeading\x7d[2]\x7b\n    \\vspace\x7b-2pt\x7d\\item\n    \\begin\x7btabular*\x7d\x7b0.97\\textwidth\x7d\x7bl@\x7b\\extracolsep\x7b\\fill\x7d\x7dr\x7d\n      \\small#1 & #2 \\\\\n    \\end\x7btabular*\x7d\\vspace\x7b-7pt\x7d\n\x7d\n\n% Organization heading with 4 parameters: company, date, position, location\n\\newcommand\x7b\\resumeOrganizationHeading\x7d[4]\x7b\n  \\vspace\x7b-2pt\x7d\\item\n").data
  ++ ("    \\begin\x7btabular*\x7d\x7b0.97\\textwidth\x7d[t]\x7bl@\x7b\\extracolsep\x7b\\fill\x7d\x7dr\x7d\n      \\textbf\x7b#1\x7d & \\textit\x7b\\small #2\x7d \\\\\n      \\textit\x7b\\small#3\x7d\n    \\end\x7btabular*\x7d\\vspace\x7b-7pt\x7d\n\x7d\n\n% Sub-item with extra spacing\n\\newcommand\x7b\\resumeSubItem\x7d[1]\x7b\\resumeItem\x7b#1\x7d\\vspace\x7b-4pt\x7d\x7d\n\n% List environment commands\n\\newcommand\x7b\\resumeSubHeadingListStart\x7d\x7b\\begin\x7bitemize\x7d[leftmargin=0.15in, label=\x7b\x7d]\x7d\n\\newcommand\x7b\\resumeSubHeadingListEnd\x7d\x7b\\end\x7bitemize\x7d\x7d\n\\newcommand\x7b\\resumeItemListStart\x7d\x7b\\begin\x7bitemize\x7d[leftmargin=*, itemsep=2pt, label=\\textbullet]\x7d\n\\newcommand\x7b\\resumeItemListEnd\x7d\x7b\\end\x7bitemize\x7d\\vspace\x7b-5pt\x7d\x7d\n\n%-------------------------------------------\n%%%%%%  RESUME STARTS HERE  %%%%%%%%%%%%%%%%%%%%%%%%%%%\n\n\\begin\x7bdocument\x7d\n\n").data

/-- `generate_heading` (lines 208-223). -/
def generate_heading (personal_info : PersonalInfo) : List Char :=
  ("%---------- HEADING ----------\n\\begin\x7bcenter\x7d\n    \\textbf\x7b\\Huge \\scshape ").data
  ++ escape_latex personal_info.name.data
  ++ ("\x7d \\\\ \\vspace\x7b3pt\x7d\n    \\small\n    ").data
  ++ escape_latex personal_info.phone.data
  ++ (" $|$ ").data
  ++ escape_latex personal_info.email.data
  ++ (" $|$ ").data
  ++ escape_latex personal_info.location.data
  ++ (" $|$ ").data
  ++ escape_latex personal_info.website.data
  ++ ("\n\\end\x7bcenter\x7d\n\n").data

/-- `generate_education` (lines 225-251); the core-module list is joined with
comma-space and then escaped as a single unit, as in the source. -/
def generate_education (education : Education) : List Char :=
  ("%---------- EDUCATION -----------\n\\section\x7bEDUCATION\x7d\n  \\vspace\x7b3pt\x7d\n  \\resumeSubHeadingListStart\n\n    \\resumeEducationHeading\n      \x7b").data
  ++ escape_latex education.institution.data
  ++ ("\x7d\x7b").data
  ++ escape_latex education.location.data
  ++ ("\x7d\n      \x7b").data
  ++ escape_latex education.degree.data
  ++ ("\x7d\x7b").data
  ++ escape_latex education.period.data
  ++ ("\x7d\n\n        \\resumeItemListStart\n            \\resumeItem\x7bCore Modules: ").data
  ++ escape_latex (joinSep ((", ").data) (education.details.core_modules.map (fun m => m.data)))
  ++ ("\x7d\n            \\resumeItem\x7bGrade: ").data
  ++ escape_latex education.details.grade.data
  ++ ("\x7d\n        \\resumeItemListEnd\n\n  \\resumeSubHeadingListEnd\n\n").data

/-- One `\resumeItem` line as emitted for a description bullet (lines 276 and
304 emit the same literal). -/
def resumeItemLine (d : String) : List Char :=
  ("            \\resumeItem\x7b").data ++ escape_latex d.data ++ ("\x7d\n").data

/-- The `\resumeSubheading` part emitted for one experience entry
(lines 268-270). -/
def expSubheading (company location position period : String) : List Char :=
  ("    \\resumeSubheading\n      \x7b").data
  ++ escape_latex company.data
  ++ ("\x7d\x7b").data
  ++ escape_latex location.data
  ++ ("\x7d\n      \x7b").data
  ++ escape_latex position.data
  ++ ("\x7d\x7b").data
  ++ escape_latex period.data
  ++ ("\x7d").data

/-- Everything one loop iteration of `generate_professional_experience`
appends for one entry (lines 262-279): the subheading, then a bullet list if
`exp['description']` is truthy (a non-empty list), else a bare newline. -/
def expBlock (exp : ExperienceEntry) : List Char :=
  expSubheading exp.company exp.location exp.position exp.period
  ++ (if exp.description.isEmpty then ("\n").data
      else ("\n        \\resumeItemListStart\n").data
        ++ concatAll (exp.description.map resumeItemLine)
        ++ ("        \\resumeItemListEnd\n").data)

/-- The fixed section opening of `generate_professional_experience`
(lines 255-260). -/
def expSectionStart : List Char :=
  ("%---------- PROFESSIONAL EXPERIENCE -----------\n\\section\x7bPROFESSIONAL EXPERIENCE\x7d\n  \\vspace\x7b3pt\x7d\n  \\resumeSubHeadingListStart\n\n").data

/-- `generate_professional_experience` (lines 253-282) as the accumulation
loop of the source. -/
def generate_professional_experience (experiences : List ExperienceEntry) : List Char :=
  experiences.foldl (fun acc exp => acc ++ expBlock exp) expSectionStart
  ++ ("  \\resumeSubHeadingListEnd\n\n").data

/-- The `\resumeProjectHeading` part emitted for one project entry
(lines 297-298). -/
def projSubheading (name period : String) : List Char :=
  ("      \\resumeProjectHeading\n        \x7b\\textbf\x7b").data
  ++ escape_latex name.data
  ++ ("\x7d\x7d\x7b").data
  ++ escape_latex period.data
  ++ ("\x7d").data

/-- Everything one loop iteration of `generate_project_experience` appends
for one entry (lines 293-307): the bullet list is emitted when the
`description` key is present at all, even when it maps to an empty list. -/
def projBlock (project : ProjectEntry) : List Char :=
  projSubheading project.name project.period
  ++ (match project.description with
      | none => ("\n").data
      | some ds => ("\n          \\resumeItemListStart\n").data
          ++ concatAll (ds.map resumeItemLine)
          ++ ("          \\resumeItemListEnd\n").data)

/-- The fixed section opening of `generate_project_experience`
(lines 286-291). -/
def projSectionStart : List Char :=
  ("%---------- PROJECT EXPERIENCE -----------\n\\section\x7bPROJECT EXPERIENCE\x7d\n    \\vspace\x7b3pt\x7d\n    \\resumeSubHeadingListStart\n\n").data

/-- `generate_project_experience` (lines 284-310). -/
def generate_project_experience (projects : List ProjectEntry) : List Char :=
  projects.foldl (fun acc project => acc ++ projBlock project) projSectionStart
  ++ ("    \\resumeSubHeadingListEnd\n\n").data

/-- `generate_additional_information` (lines 312-335): the joined language
and skill strings are each escaped as a whole. -/
def generate_additional_information (additional_info : AdditionalInfo) : List Char :=
  ("%---------- ADDITIONAL INFORMATION -----------\n\\section\x7bADDITIONAL INFORMATION\x7d\n  \\vspace\x7b2pt\x7d\n  \\resumeSubHeadingListStart\n    \\small\x7b\\item\x7b\n        \\textbf\x7bLanguages:\x7d ").data
  ++ escape_latex (joinSep ((", ").data)
        (additional_info.languages.map
          (fun lang => lang.language.data ++ (" (").data ++ lang.proficiency.data ++ (")").data)))
  ++ (" \\\\ \\vspace\x7b3pt\x7d\n\n        \\textbf\x7bSkills:\x7d ").data
  ++ escape_latex (joinSep ((", ").data) (additional_info.skills.map (fun s => s.data)))
  ++ (" \\\\ \\vspace\x7b3pt\x7d\n    \x7d\x7d\n  \\resumeSubHeadingListEnd\n\n").data

/-- `generate_latex_footer` (lines 337-341). -/
def generate_latex_footer : List Char :=
  ("%-------------------------------------------\n\\end\x7bdocument\x7d\n").data

/-- `generate_resume_latex` (lines 343-368): fixed-order concatenation of the
header, the five section blocks, and the footer. -/
def generate_resume_latex (resume_data : ResumeData) : List Char :=
  generate_latex_header
  ++ generate_heading resume_data.personal_info
  ++ generate_education resume_data.education
  ++ generate_professional_experience resume_data.professional_experience
  ++ generate_project_experience resume_data.project_experience
  ++ generate_additional_information resume_data.additional_information
  ++ generate_latex_footer

/-- A character kept verbatim by the filename slug: the regex class
`[a-zA-Z0-9\-]` of line 69. -/
def isFilenameChar (ch : Char) : Bool :=
  (decide ('a' ≤ ch) && decide (ch ≤ 'z'))
  || (decide ('A' ≤ ch) && decide (ch ≤ 'Z'))
  || (decide ('0' ≤ ch) && decide (ch ≤ '9'))
  || ch == '-'

/-- Python `s.strip(c)`: remove every leading and trailing occurrence of `c`. -/
def stripEnds (c : Char) (l : List Char) : List Char :=
  ((l.dropWhile (fun x => x == c)).reverse.dropWhile (fun x => x == c)).reverse

/-- `generate_output_filename` (lines 63-74): spaces to hyphens, every
character outside `[a-zA-Z0-9\-]` to underscore, leading and trailing
underscores stripped, then the `_resume.tex` suffix. -/
def generate_output_filename (resume_data : ResumeData) : List Char :=
  let clean_name := replaceChar ' ' ['-'] resume_data.personal_info.name.data
  let slug := clean_name.map (fun ch => if isFilenameChar ch then ch else '_')
  stripEnds '_' slug ++ ("_resume.tex").data

/-- The minimal valid input record used for the round-trip checks: every
required field present and empty. -/
def minimalResume : ResumeData :=
  { personal_info := { name := "", phone := "", email := "", location := "", website := "" }
  , education :=
      { institution := "", location := "", degree := "", period := ""
      , details := { core_modules := [], grade := "" } }
  , professional_experience := []
  , project_experience := []
  , additional_information := { languages := [], skills := [] } }

/-! ## Syntax checker (src/resume2latex.py lines 374-434) -/

/-- A word character in the sense of the regex `\w` (restricted to the ASCII
texts handled here): letter, digit, or underscore. -/
def isWordChar (ch : Char) : Bool :=
  ch.isAlphanum || ch == '_'

/-- Position of an ampersand matched by `(?<!\\)&(?!\w)` (line 396): an `&`
not immediately preceded by a backslash and not immediately followed by a
word character. -/
def ampUnescapedAt (l : List Char) (i : Nat) : Bool :=
  unescapedAt '&' l i && !(isWordChar (l.getD (i + 1) ' '))

/-- Number of matches of `(?<!\\)&(?!\w)` in `l`. -/
def countUnescapedAmp (l : List Char) : Nat :=
  ((List.range l.length).filter (ampUnescapedAt l)).length

/-- Comment removal by `re.sub(r'%.*$', '', content, flags=re.MULTILINE)`
(line 387): on each line, everything from the first percent — escaped or
not — through the end of the line is deleted. -/
def strip_comments (content : List Char) : List Char :=
  joinSep ['\n'] ((splitOnNl content).map (fun ln => ln.takeWhile (fun ch => ch != '%')))

/-- The content-start marker searched for on line 393. -/
def docStartMarker : List Char := ("\\begin\x7bdocument\x7d").data

/-- The three required literal markers (lines 407-411). -/
def requiredElements : List (List Char) :=
  [("\\documentclass").data, ("\\begin\x7bdocument\x7d").data, ("\\end\x7bdocument\x7d").data]

/-- The findings gathered by `validate_latex_syntax` (lines 374-434), with
each issue recorded as the number the reported message would contain; the
file passes exactly when no issue fires. -/
structure ValidationReport where
  unescaped_percent : Nat
  unescaped_ampersand : Nat
  open_braces : Nat
  close_braces : Nat
  missing_required : List (List Char)

/-- The scan of `validate_latex_syntax` on file content: percent scan on the
comment-stripped text, ampersand scan on the content from the first
content-start marker (skipped entirely when the marker is absent), brace
counts, and the required-marker check. -/
def validate_latex (content : List Char) : ValidationReport :=
  { unescaped_percent := countUnescaped '%' (strip_comments content)
  , unescaped_ampersand :=
      match findSubstr docStartMarker content with
      | none => 0
      | some d => countUnescapedAmp (content.drop d)
  , open_braces := countChar '\x7b' content
  , close_braces := countChar '\x7d' content
  , missing_required := requiredElements.filter (fun req => (findSubstr req content).isNone) }

/-- Comparison definition following the claim wording for the comment strip:
keep each line up to AND INCLUDING its first unescaped percent, stripping
only the text following it; a line whose percents are all escaped is kept
whole. -/
def claimStripLine (ln : List Char) : List Char :=
  match ((List.range ln.length).filter (unescapedAt '%' ln)).head? with
  | none => ln
  | some j => ln.take (j + 1)

/-- The claim-worded comment strip applied line by line. -/
def claimStripComments (content : List Char) : List Char :=
  joinSep ['\n'] ((splitOnNl content).map claimStripLine)

/-- File content in which an escaped percent precedes an unescaped percent
on the same line. -/
def c3FailingContent : List Char := ("abc \\% def %\nrest").data

/-- A document whose only ampersand after the content-start marker is in
`&nbsp`: an ampersand immediately followed by a word character. -/
def nbspDoc : List Char :=
  ("\\begin\x7bdocument\x7d a &nbsp b \\end\x7bdocument\x7d").data

/-! ## Raw input records and required-field checking

The source accesses the parsed JSON with bare dict lookups; a missing key
raises `KeyError` at the point of access.  The raw structures make every
looked-up key optional, and the checked builders model the lookups in
`Except`, erroring with the missing key's name. -/

structure RawPersonalInfo where
  name : Option String
  phone : Option String
  email : Option String
  location : Option String
  website : Option String

structure RawEducationDetails where
  core_modules : Option (List String)
  grade : Option String

structure RawEducation where
  institution : Option String
  location : Option String
  degree : Option String
  period : Option String
  details : Option RawEducationDetails

structure RawExperienceEntry where
  company : Option String
  location : Option String
  position : Option String
  period : Option String
  description : Option (List String)

structure RawProjectEntry where
  name : Option String
  period : Option String
  description : Option (List String)

structure RawLanguageEntry where
  language : Option String
  proficiency : Option String

structure RawAdditionalInfo where
  languages : Option (List RawLanguageEntry)
  skills : Option (List String)

structure RawResumeData where
  personal_info : Option RawPersonalInfo
  education : Option RawEducation
  professional_experience : Option (List RawExperienceEntry)
  project_experience : Option (List RawProjectEntry)
  additional_information : Option RawAdditionalInfo

/-- Python dict access `d[key]`: a missing key raises `KeyError(key)`,
modelled as `Except.error key`. -/
def getKey (v : Option α) (key : String) : Except String α :=
  match v with
  | none => Except.error key
  | some x => Except.ok x

/-- `generate_heading` with its five required lookups (lines 210-214). -/
def generate_heading_checked (p : RawPersonalInfo) : Except String (List Char) := do
  let name ← getKey p.name "name"
  let phone ← getKey p.phone "phone"
  let email ← getKey p.email "email"
  let location ← getKey p.location "location"
  let website ← getKey p.website "website"
  return generate_heading
    { name := name, phone := phone, email := email
    , location := location, website := website }

/-- `generate_education` with its required lookups (lines 227-232). -/
def generate_education_checked (e : RawEducation) : Except String (List Char) := do
  let institution ← getKey e.institution "institution"
  let location ← getKey e.location "location"
  let degree ← getKey e.degree "degree"
  let period ← getKey e.period "period"
  let details ← getKey e.details "details"
  let core_modules ← getKey details.core_modules "core_modules"
  let grade ← getKey details.grade "grade"
  return generate_education
    { institution := institution, location := location, degree := degree
    , period := period
    , details := { core_modules := core_modules, grade := grade } }

/-- One experience entry with its required lookups (lines 263-272); the
`description` key is accessed unconditionally. -/
def expEntry_checked (exp : RawExperienceEntry) : Except String ExperienceEntry := do
  let company ← getKey exp.company "company"
  let location ← getKey exp.location "location"
  let position ← getKey exp.position "position"
  let period ← getKey exp.period "period"
  let description ← getKey exp.description "description"
  return { company := company, location := location, position := position
         , period := period, description := description }

/-- `generate_professional_experience` over raw entries. -/
def generate_professional_experience_checked (exps : List RawExperienceEntry) :
    Except String (List Char) := do
  let entries ← exps.mapM expEntry_checked
  return generate_professional_experience entries

/-- One project entry (lines 294-300): `name` and `period` are required,
`description` is only presence-tested, never a `KeyError`. -/
def projEntry_checked (project : RawProjectEntry) : Except String ProjectEntry := do
  let name ← getKey project.name "name"
  let period ← getKey project.period "period"
  return { name := name, period := period, description := project.description }

/-- `generate_project_experience` over raw entries. -/
def generate_project_experience_checked (projects : List RawProjectEntry) :
    Except String (List Char) := do
  let entries ← projects.mapM projEntry_checked
  return generate_project_experience entries

/-- One language record with its two lookups (line 317). -/
def langEntry_checked (lang : RawLanguageEntry) : Except String LanguageEntry := do
  let language ← getKey lang.language "language"
  let proficiency ← getKey lang.proficiency "proficiency"
  return { language := language, proficiency := proficiency }

/-- `generate_additional_information` with its lookups (lines 314-317). -/
def generate_additional_information_checked (a : RawAdditionalInfo) :
    Except String (List Char) := do
  let languages ← getKey a.languages "languages"
  let skills ← getKey a.skills "skills"
  let langs ← languages.mapM langEntry_checked
  return generate_additional_information { languages := langs, skills := skills }

/-- `generate_resume_latex` over a raw record (lines 343-368): the first
missing required field aborts the generation, as the corresponding
`KeyError` would. -/
def generate_resume_latex_checked (resume_data : RawResumeData) :
    Except String (List Char) := do
  let personal_info ← getKey resume_data.personal_info "personal_info"
  let heading ← generate_heading_checked personal_info
  let education ← getKey resume_data.education "education"
  let edu ← generate_education_checked education
  let experiences ← getKey resume_data.professional_experience "professional_experience"
  let experience ← generate_professional_experience_checked experiences
  let projects ← getKey resume_data.project_experience "project_experience"
  let project ← generate_project_experience_checked projects
  let additional ← getKey resume_data.additional_information "additional_information"
  let addl ← generate_additional_information_checked additional
  return generate_latex_header ++ heading ++ edu ++ experience ++ project ++ addl
    ++ generate_latex_footer

/-- Outcome of reading and parsing the input file: the boundary that
`load_resume_data` (lines 80-90) sees. -/
inductive LoadInput where
  | missingFile
  | malformed
  | parsed (d : RawResumeData)

/-- `load_resume_data` (lines 80-90): a missing file or invalid JSON prints
an error and exits with status 1; success returns the parsed record. -/
def load_resume_data : LoadInput → Except Nat RawResumeData
  | LoadInput.missingFile => Except.error 1
  | LoadInput.malformed => Except.error 1
  | LoadInput.parsed d => Except.ok d

/-- Observable outcome of one generation run: the process exit status and
the output document, if one was written. -/
structure RunOutcome where
  exit_code : Nat
  written_file : Option (List Char)

/-- The JSON-to-LaTeX path of `main` (lines 1155-1175) without the optional
validate and pdf steps: load, generate, then write.  A `KeyError` escaping
`generate_resume_latex` (line 1163) is uncaught — the `try` of line 1172
only wraps the file write — so the interpreter terminates with status 1
before any output file is opened. -/
def main_generate (input : LoadInput) : RunOutcome :=
  match load_resume_data input with
  | Except.error code => { exit_code := code, written_file := none }
  | Except.ok d =>
    match generate_resume_latex_checked d with
    | Except.error _ => { exit_code := 1, written_file := none }
    | Except.ok content => { exit_code := 0, written_file := some content }

/-- A raw record complete except for the required `name` key of
`personal_info`. -/
def noNameRaw : RawResumeData :=
  { personal_info := some
      { name := none, phone := some "", email := some ""
      , location := some "", website := some "" }
  , education := some
      { institution := some "", location := some "", degree := some ""
      , period := some ""
      , details := some { core_modules := some [], grade := some "" } }
  , professional_experience := some []
  , project_experience := some []
  , additional_information := some { languages := some [], skills := some [] } }

/-- The resume record of the filename example: personal name `John Doe`. -/
def johnDoeResume : ResumeData :=
  { minimalResume with personal_info :=
      { minimalResume.personal_info with name := "John Doe" } }

/-! ## Chunked view of the minimal document

`generate_resume_latex minimalResume` as the concatenation of its literal
pieces, used to compute substring and brace counts piecewise. -/

/-- The literal pieces, in order, of the document generated from
`minimalResume`: the four header parts, then each fixed fragment of the
section templates (the escaped fields of the minimal record are all empty). -/
def minimalDocChunks : List (List Char) :=
  [("\\documentclass[letterpaper,11pt]\x7barticle\x7d\n\n%---------- PACKAGES ----------\n\\usepackage\x7blatexsym\x7d\n\\usepackage[empty]\x7bfullpage\x7d\n\\usepackage\x7btitlesec\x7d\n\\usepackage\x7btextcomp\x7d  % Alternative to marvosym for symbols\n\\usepackage[usenames,dvipsnames]\x7bcolor\x7d\n\\usepackage\x7btimes\x7d    % main text in Times New Roman\n\\usepackage\x7bverbatim\x7d\n\\usepackage\x7benumitem\x7d\n\\usepackage[hidelinks]\x7bhyperref\x7d\n\\usepackage\x7bfancyhdr\x7d\n\\usepackage[english]\x7bbabel\x7d\n\\usepackage\x7btabularx\x7d\n\\usepackage\x7bhyphenat\x7d\n\n%---------- PAGE SETUP ----------\n\\pagestyle\x7bfancy\x7d\n\\fancyhf\x7b\x7d % clear all header and footer fields\n\\fancyfoot\x7b\x7d\n\\renewcommand\x7b\\headrulewidth\x7d\x7b0pt\x7d\n\\renewcommand\x7b\\footrulewidth\x7d\x7b0pt\x7d\n\n% Adjust margins\n\\addtolength\x7b\\oddsidemargin\x7d\x7b-0.5in\x7d\n\\addtolength\x7b\\evensidemargin\x7d\x7b-0.5in\x7d\n\\addtolength\x7b\\textwidth\x7d\x7b1in\x7d\n\\addtolength\x7b\\topmargin\x7d\x7b-.5in\x7d\n\\addtolength\x7b\\textheight\x7d\x7b1.0in\x7d\n\n").data
  , ("\\urlstyle\x7bsame\x7d\n\\raggedbottom\n\\raggedright\n\\setlength\x7b\\tabcolsep\x7d\x7b0in\x7d\n\n%---------- SECTION FORMATTING ----------\n\\titleformat\x7b\\section\x7d\x7b\n  \\vspace\x7b-4pt\x7d\\scshape\\raggedright\\large\n\x7d\x7b\x7d\x7b0em\x7d\x7b\x7d[\\color\x7bblack\x7d\\titlerule \\vspace\x7b-5pt\x7d]\n\n% Ensure that generate pdf is machine readable/ATS parsable\n\\pdfgentounicode=1\n\n%---------- CUSTOM COMMANDS ----------\n\n% Basic item command\n\\newcommand\x7b\\resumeItem\x7d[1]\x7b\n  \\item \\small\x7b #1 \x7d\n\x7d\n\n% Subheading with 4 parameters: company, location, position, date\n\\newcommand\x7b\\resumeSubheading\x7d[4]\x7b\n  \\vspace\x7b-2pt\x7d\\item\n    \\begin\x7btabular*\x7d\x7b0.97\\textwidth\x7d[t]\x7bl@\x7b\\extracolsep\x7b\\fill\x7d\x7dr\x7d\n      \\textbf\x7b#1\x7d & #2 \\\\\n      \x7b\\small #3\x7d & \x7b\\small #4\x7d \\\\\n    \\end\x7btabular*\x7d\\vspace\x7b-7pt\x7d\n\x7d\n\n% Sub-subheading with 2 parameters: title, date\n\\newcommand\x7b\\resumeSubSubheading\x7d[2]\x7b\n    \\vspace\x7b-2pt\x7d\\item\n").data
  , ("    \\begin\x7btabular*\x7d\x7b0.97\\textwidth\x7d\x7bl@\x7b\\extracolsep\x7b\\fill\x7d\x7dr\x7d\n      \x7b\\small #1\x7d & \x7b\\small #2\x7d \\\\\n    \\end\x7btabular*\x7d\\vspace\x7b-7pt\x7d\n\x7d\n\n% Education heading with 4 parameters: university, location, degree, date\n\\newcommand\x7b\\resumeEducationHeading\x7d[4]\x7b\n  \\vspace\x7b-2pt\x7d\\item\n    \\begin\x7btabular*\x7d\x7b0.97\\textwidth\x7d[t]\x7bl@\x7b\\extracolsep\x7b\\fill\x7d\x7dr\x7d\n      \\textbf\x7b#1\x7d & #2 \\\\\n      \x7b\\small #3\x7d & \x7b\\small #4\x7d \\\\\n    \\end\x7btabular*\x7d\\vspace\x7b-7pt\x7d\n\x7d\n\n% Project heading with 2 parameters: project name, date\n\\newcommand\x7b\\resumeProjectHeading\x7d[2]\x7b\n    \\vspace\x7b-2pt\x7d\\item\n    \\begin\x7btabular*\x7d\x7b0.97\\textwidth\x7d\x7bl@\x7b\\extracolsep\x7b\\fill\x7d\x7dr\x7d\n      \\small#1 & #2 \\\\\n    \\end\x7btabular*\x7d\\vspace\x7b-7pt\x7d\n\x7d\n\n% Organization heading with 4 parameters: company, date, position, location\n\\newcommand\x7b\\resumeOrganizationHeading\x7d[4]\x7b\n  \\vspace\x7b-2pt\x7d\\item\n").data
  , ("    \\begin\x7btabular*\x7d\x7b0.97\\textwidth\x7d[t]\x7bl@\x7b\\extracolsep\x7b\\fill\x7d\x7dr\x7d\n      \\textbf\x7b#1\x7d & \\textit\x7b\\small #2\x7d \\\\\n      \\textit\x7b\\small#3\x7d\n    \\end\x7btabular*\x7d\\vspace\x7b-7pt\x7d\n\x7d\n\n% Sub-item with extra spacing\n\\newcommand\x7b\\resumeSubItem\x7d[1]\x7b\\resumeItem\x7b#1\x7d\\vspace\x7b-4pt\x7d\x7d\n\n% List environment commands\n\\newcommand\x7b\\resumeSubHeadingListStart\x7d\x7b\\begin\x7bitemize\x7d[leftmargin=0.15in, label=\x7b\x7d]\x7d\n\\newcommand\x7b\\resumeSubHeadingListEnd\x7d\x7b\\end\x7bitemize\x7d\x7d\n\\newcommand\x7b\\resumeItemListStart\x7d\x7b\\begin\x7bitemize\x7d[leftmargin=*, itemsep=2pt, label=\\textbullet]\x7d\n\\newcommand\x7b\\resumeItemListEnd\x7d\x7b\\end\x7bitemize\x7d\\vspace\x7b-5pt\x7d\x7d\n\n%-------------------------------------------\n%%%%%%  RESUME STARTS HERE  %%%%%%%%%%%%%%%%%%%%%%%%%%%\n\n\\begin\x7bdocument\x7d\n\n").data
  , ("%---------- HEADING ----------\n\\begin\x7bcenter\x7d\n    \\textbf\x7b\\Huge \\scshape ").data
  , ("\x7d \\\\ \\vspace\x7b3pt\x7d\n    \\small\n    ").data
  , (" $|$ ").data
  , (" $|$ ").data
  , (" $|$ ").data
  , ("\n\\end\x7bcenter\x7d\n\n").data
  , ("%---------- EDUCATION -----------\n\\section\x7bEDUCATION\x7d\n  \\vspace\x7b3pt\x7d\n  \\resumeSubHeadingListStart\n\n    \\resumeEducationHeading\n      \x7b").data
  , ("\x7d\x7b").data
  , ("\x7d\n      \x7b").data
  , ("\x7d\x7b").data
  , ("\x7d\n\n        \\resumeItemListStart\n            \\resumeItem\x7bCore Modules: ").data
  , ("\x7d\n            \\resumeItem\x7bGrade: ").data
  , ("\x7d\n        \\resumeItemListEnd\n\n  \\resumeSubHeadingListEnd\n\n").data
  , expSectionStart
  , ("  \\resumeSubHeadingListEnd\n\n").data
  , projSectionStart
  , ("    \\resumeSubHeadingListEnd\n\n").data
  , ("%---------- ADDITIONAL INFORMATION -----------\n\\section\x7bADDITIONAL INFORMATION\x7d\n  \\vspace\x7b2pt\x7d\n  \\resumeSubHeadingListStart\n    \\small\x7b\\item\x7b\n        \\textbf\x7bLanguages:\x7d ").data
  , (" \\\\ \\vspace\x7b3pt\x7d\n\n        \\textbf\x7bSkills:\x7d ").data
  , (" \\\\ \\vspace\x7b3pt\x7d\n    \x7d\x7d\n  \\resumeSubHeadingListEnd\n\n").data
  , generate_latex_footer ]

/-- Count of the occurrences of `pat` that start inside `a` when `a` is
followed by the continuation `b`. -/
def countSubstrFrom (pat : List Char) (b : List Char) : List Char → Nat
  | [] => 0
  | x :: rest =>
    (if startsWith pat ((x :: rest) ++ b) then 1 else 0) + countSubstrFrom pat b rest

/-- Occurrence count over a chunked text: occurrences starting in each chunk
are counted against the chunk plus (a bounded prefix of) its continuation. -/
def countSubstrChunks (pat : List Char) : List (List Char) → Nat
  | [] => 0
  | [a] => countSubstr pat a
  | a :: b :: L =>
    countSubstrFrom pat ((concatAll (b :: L)).take pat.length) a
    + countSubstrChunks pat (b :: L)

/-! ## Theorems -/

theorem replaceChar_append (c : Char) (r : List Char) (a b : List Char) :
    replaceChar c r (a ++ b) = replaceChar c r a ++ replaceChar c r b := by
  induction a with
  | nil => rfl
  | cons x xs ih => simp [replaceChar, ih]

theorem escapeChain_append (a b : List Char) :
    escapeChain (a ++ b) = escapeChain a ++ escapeChain b := by
  simp [escapeChain, replaceChar_append]

theorem escapeChain_single (x : Char) : escapeChain [x] = escChar x := by
  by_cases h1 : x = '\x7b'
  · subst h1; rfl
  · by_cases h2 : x = '\x7d'
    · subst h2; rfl
    · by_cases h3 : x = '&'
      · subst h3; rfl
      · by_cases h4 : x = '%'
        · subst h4; rfl
        · simp [escapeChain, replaceChar, escChar, isSpecialChar, h1, h2, h3, h4]

theorem escapeChain_eq_escapeAll (s : List Char) : escapeChain s = escapeAll s := by
  induction s with
  | nil => rfl
  | cons x rest ih =>
    have : x :: rest = [x] ++ rest := rfl
    rw [this, escapeChain_append, escapeChain_single, ih]
    rfl

theorem escape_latex_eq_escapeAll (s : List Char) : escape_latex s = escapeAll s := by
  cases s with
  | nil => rfl
  | cons x rest =>
    show escapeChain (x :: rest) = escapeAll (x :: rest)
    exact escapeChain_eq_escapeAll _

theorem escapeAll_special_escaped (s : List Char) :
    ∀ i : Nat, i < (escapeAll s).length →
      isSpecialChar ((escapeAll s).getD i ' ') = true →
      0 < i ∧ (escapeAll s).getD (i - 1) ' ' = '\\' := by
  induction s with
  | nil => intro i hi; simp [escapeAll] at hi
  | cons x rest ih =>
    intro i hi hsp
    by_cases hx : isSpecialChar x
    · have hblock : escapeAll (x :: rest) = '\\' :: x :: escapeAll rest := by
        simp [escapeAll, escChar, hx]
      rw [hblock] at hi hsp ⊢
      match i with
      | 0 => simp [isSpecialChar] at hsp
      | 1 => exact ⟨Nat.zero_lt_one, rfl⟩
      | (k + 2) =>
        simp only [List.getD_cons_succ] at hsp
        simp only [List.length_cons] at hi
        have hk : k < (escapeAll rest).length := by omega
        obtain ⟨hkpos, hprev⟩ := ih k hk hsp
        obtain ⟨j, rfl⟩ : ∃ j, k = j + 1 := ⟨k - 1, by omega⟩
        refine ⟨by omega, ?_⟩
        simpa using hprev
    · have hblock : escapeAll (x :: rest) = x :: escapeAll rest := by
        simp [escapeAll, escChar, hx]
      rw [hblock] at hi hsp ⊢
      match i with
      | 0 =>
        simp only [List.getD_cons_zero] at hsp
        exact absurd hsp (by simpa using hx)
      | (k + 1) =>
        simp only [List.getD_cons_succ] at hsp
        simp only [List.length_cons] at hi
        have hk : k < (escapeAll rest).length := by omega
        obtain ⟨hkpos, hprev⟩ := ih k hk hsp
        obtain ⟨j, rfl⟩ : ∃ j, k = j + 1 := ⟨k - 1, by omega⟩
        refine ⟨by omega, ?_⟩
        simpa using hprev

theorem countUnescaped_escapeAll_eq_zero (c : Char) (hc : isSpecialChar c = true)
    (s : List Char) : countUnescaped c (escapeAll s) = 0 := by
  apply List.length_eq_zero.mpr
  rw [List.filter_eq_nil_iff]
  intro i hi
  rw [List.mem_range] at hi
  intro hP
  simp only [unescapedAt, Bool.and_eq_true, Bool.or_eq_true, beq_iff_eq,
    Bool.not_eq_true', beq_eq_false_iff_ne, ne_eq] at hP
  obtain ⟨hchar, hside⟩ := hP
  have hspec : isSpecialChar ((escapeAll s).getD i ' ') = true := by rw [hchar]; exact hc
  obtain ⟨hpos, hprev⟩ := escapeAll_special_escaped s i hi hspec
  rcases hside with h0 | hne
  · omega
  · exact hne hprev

/-! ### Counting over concatenations -/

theorem countChar_append (c : Char) (a b : List Char) :
    countChar c (a ++ b) = countChar c a + countChar c b := by
  induction a with
  | nil => simp [countChar]
  | cons x rest ih => simp [countChar, ih]; omega

theorem countChar_concatAll (c : Char) :
    ∀ L : List (List Char), countChar c (concatAll L) = (L.map (countChar c)).sum := by
  intro L
  induction L with
  | nil => rfl
  | cons a L ih => simp [concatAll, countChar_append, ih]

theorem countSubstr_append_from (pat b : List Char) :
    ∀ a, countSubstr pat (a ++ b) = countSubstrFrom pat b a + countSubstr pat b := by
  intro a
  induction a with
  | nil => simp [countSubstrFrom]
  | cons x rest ih =>
    simp only [List.cons_append, countSubstr, countSubstrFrom, ih, List.append_eq]
    omega

theorem startsWith_take (pat : List Char) :
    ∀ l, startsWith pat l = startsWith pat (l.take pat.length) := by
  induction pat with
  | nil => intro l; rfl
  | cons c ps ih =>
    intro l
    cases l with
    | nil => simp [startsWith]
    | cons y ys => simp [startsWith, List.length_cons, List.take_succ_cons, ih ys]

theorem countSubstrFrom_congr (pat : List Char) (b b' : List Char)
    (h : b.take pat.length = b'.take pat.length) :
    ∀ a, countSubstrFrom pat b a = countSubstrFrom pat b' a := by
  intro a
  induction a with
  | nil => rfl
  | cons x rest ih =>
    have hsw : startsWith pat ((x :: rest) ++ b) = startsWith pat ((x :: rest) ++ b') := by
      rw [startsWith_take pat ((x :: rest) ++ b), startsWith_take pat ((x :: rest) ++ b')]
      rw [List.take_append_eq_append_take, List.take_append_eq_append_take]
      have hm : pat.length - (x :: rest).length ≤ pat.length := Nat.sub_le _ _
      have hb := congrArg (List.take (pat.length - (x :: rest).length)) h
      rw [List.take_take, List.take_take, Nat.min_eq_left hm] at hb
      rw [hb]
    simp only [countSubstrFrom, hsw, ih]

theorem countSubstr_concatAll (pat : List Char) :
    ∀ L, countSubstr pat (concatAll L) = countSubstrChunks pat L := by
  intro L
  induction L with
  | nil => rfl
  | cons a L ih =>
    cases L with
    | nil => simp [concatAll, countSubstrChunks, List.append_nil]
    | cons b M =>
      show countSubstr pat (a ++ concatAll (b :: M)) = _
      rw [countSubstr_append_from, countSubstrChunks, ih]
      congr 1
      apply countSubstrFrom_congr
      rw [List.take_take, Nat.min_self]

/-! ### The minimal document as its chunk list -/

theorem escape_latex_empty : escape_latex (("").data) = [] := rfl

theorem escape_latex_nil : escape_latex [] = [] := rfl

theorem minimalDoc_eq_chunks :
    generate_resume_latex minimalResume = concatAll minimalDocChunks := by
  simp only [generate_resume_latex, minimalResume, generate_latex_header,
    generate_heading, generate_education, generate_professional_experience,
    generate_project_experience, generate_additional_information,
    minimalDocChunks, concatAll, List.foldl_nil, List.map_nil, joinSep,
    escape_latex_empty, escape_latex_nil, List.append_assoc, List.append_nil,
    List.nil_append]

/-! ### Syntax checker facts -/

theorem mem_takeWhile_sat (p : Char → Bool) :
    ∀ (l : List Char) (x : Char), x ∈ l.takeWhile p → p x = true := by
  intro l
  induction l with
  | nil => intro x hx; simp [List.takeWhile] at hx
  | cons y ys ih =>
    intro x hx
    by_cases hy : p y
    · rw [List.takeWhile_cons, if_pos hy] at hx
      rcases List.mem_cons.mp hx with rfl | hmem
      · exact hy
      · exact ih x hmem
    · rw [List.takeWhile_cons, if_neg hy] at hx
      simp at hx

theorem mem_joinSep_nl (L : List (List Char)) (x : Char)
    (hx : x ∈ joinSep ['\n'] L) : x = '\n' ∨ ∃ ln ∈ L, x ∈ ln := by
  induction L with
  | nil => simp [joinSep] at hx
  | cons a L ih =>
    cases L with
    | nil =>
      right
      exact ⟨a, List.mem_cons_self a [], hx⟩
    | cons b M =>
      have hrw : joinSep ['\n'] (a :: b :: M) = a ++ ['\n'] ++ joinSep ['\n'] (b :: M) := rfl
      rw [hrw] at hx
      rcases List.mem_append.mp hx with h1 | h2
      · rcases List.mem_append.mp h1 with ha | hnl
        · exact Or.inr ⟨a, List.mem_cons_self _ _, ha⟩
        · simp at hnl; exact Or.inl hnl
      · rcases ih h2 with h | ⟨ln, hln, hmem⟩
        · exact Or.inl h
        · exact Or.inr ⟨ln, List.mem_cons_of_mem _ hln, hmem⟩

theorem percent_not_mem_strip_comments (content : List Char) :
    '%' ∉ strip_comments content := by
  intro hmem
  rcases mem_joinSep_nl _ _ hmem with h | ⟨ln, hln, hx⟩
  · simp at h
  · rcases List.mem_map.mp hln with ⟨ln0, _, rfl⟩
    have := mem_takeWhile_sat (fun ch => ch != '%') ln0 '%' hx
    simp at this

theorem countUnescaped_eq_zero_of_not_mem (c : Char) (l : List Char)
    (h : c ∉ l) : countUnescaped c l = 0 := by
  apply List.length_eq_zero.mpr
  rw [List.filter_eq_nil_iff]
  intro i hi
  rw [List.mem_range] at hi
  intro hP
  simp only [unescapedAt, Bool.and_eq_true, beq_iff_eq] at hP
  apply h
  rw [← hP.1, List.getD_eq_getElem l ' ' hi]
  exact List.getElem_mem hi

theorem validate_percent_zero (content : List Char) :
    (validate_latex content).unescaped_percent = 0 :=
  countUnescaped_eq_zero_of_not_mem '%' _ (percent_not_mem_strip_comments content)

theorem countUnescapedAmp_pos_iff (l : List Char) :
    countUnescapedAmp l ≠ 0 ↔
      ∃ i, i < l.length ∧ l.getD i ' ' = '&'
        ∧ (i = 0 ∨ l.getD (i - 1) ' ' ≠ '\\')
        ∧ isWordChar (l.getD (i + 1) ' ') = false := by
  unfold countUnescapedAmp
  rw [Ne, List.length_eq_zero, List.filter_eq_nil_iff]
  push_neg
  constructor
  · rintro ⟨i, hi, hP⟩
    rw [List.mem_range] at hi
    simp only [ampUnescapedAt, unescapedAt, Bool.and_eq_true, Bool.or_eq_true,
      beq_iff_eq, Bool.not_eq_true', beq_eq_false_iff_ne, ne_eq] at hP
    exact ⟨i, hi, hP.1.1, by simpa using hP.1.2, hP.2⟩
  · rintro ⟨i, hi, h1, h2, h3⟩
    refine ⟨i, List.mem_range.mpr hi, ?_⟩
    simp only [ampUnescapedAt, unescapedAt, Bool.and_eq_true, Bool.or_eq_true,
      beq_iff_eq, Bool.not_eq_true', beq_eq_false_iff_ne, ne_eq]
    exact ⟨⟨h1, by simpa using h2⟩, h3⟩

/-! ### Loop accumulation as a map -/

theorem foldl_append_concatAll {α : Type} (f : α → List Char) :
    ∀ (l : List α) (init : List Char),
      l.foldl (fun acc x => acc ++ f x) init = init ++ concatAll (l.map f) := by
  intro l
  induction l with
  | nil => intro init; simp [concatAll]
  | cons x xs ih =>
    intro init
    simp only [List.foldl_cons, List.map_cons, concatAll, ih, List.append_assoc]

/-! ### Trimming facts for the filename slug -/

theorem head?_dropWhile_not (p : Char → Bool) :
    ∀ (l : List Char) (x : Char), (l.dropWhile p).head? = some x → p x = false := by
  intro l
  induction l with
  | nil => intro x hx; simp [List.dropWhile] at hx
  | cons y ys ih =>
    intro x hx
    by_cases hy : p y
    · rw [List.dropWhile_cons, if_pos hy] at hx
      exact ih x hx
    · rw [List.dropWhile_cons, if_neg hy, List.head?_cons] at hx
      obtain rfl : y = x := Option.some.inj hx
      simpa using hy

theorem mem_of_dropWhile_mem (p : Char → Bool) :
    ∀ (l : List Char) (x : Char), x ∈ l.dropWhile p → x ∈ l := by
  intro l
  induction l with
  | nil => intro x hx; simp [List.dropWhile] at hx
  | cons y ys ih =>
    intro x hx
    by_cases hy : p y
    · rw [List.dropWhile_cons, if_pos hy] at hx
      exact List.mem_cons_of_mem _ (ih x hx)
    · rw [List.dropWhile_cons, if_neg hy] at hx
      exact hx

theorem dropWhile_eq_drop (p : Char → Bool) :
    ∀ l : List Char, ∃ k, l.dropWhile p = l.drop k := by
  intro l
  induction l with
  | nil => exact ⟨0, rfl⟩
  | cons y ys ih =>
    by_cases hy : p y
    · obtain ⟨k, hk⟩ := ih
      exact ⟨k + 1, by rw [List.dropWhile_cons, if_pos hy, List.drop_succ_cons, hk]⟩
    · exact ⟨0, by rw [List.dropWhile_cons, if_neg hy, List.drop_zero]⟩

theorem head?_take_eq (x : Char) (m : List Char) (t : Nat)
    (h : (m.take t).head? = some x) : m.head? = some x := by
  cases m with
  | nil => simp at h
  | cons y ys =>
    cases t with
    | zero => simp at h
    | succ j =>
      rw [List.take_succ_cons, List.head?_cons] at h
      rw [List.head?_cons]
      exact h

theorem stripEnds_head_ne (c : Char) (l : List Char) (x : Char)
    (hx : (stripEnds c l).head? = some x) : x ≠ c := by
  unfold stripEnds at hx
  obtain ⟨k, hk⟩ := dropWhile_eq_drop (fun ch => ch == c)
    (l.dropWhile (fun ch => ch == c)).reverse
  rw [hk] at hx
  rw [List.reverse_drop] at hx
  rw [List.reverse_reverse, List.length_reverse] at hx
  have h2 := head?_take_eq x _ _ hx
  have h3 := head?_dropWhile_not (fun ch => ch == c) l x h2
  simpa using h3

theorem stripEnds_reverse_head_ne (c : Char) (l : List Char) (x : Char)
    (hx : (stripEnds c l).reverse.head? = some x) : x ≠ c := by
  unfold stripEnds at hx
  rw [List.reverse_reverse] at hx
  have h2 := head?_dropWhile_not (fun ch => ch == c) _ x hx
  simpa using h2

theorem mem_of_stripEnds_mem (c : Char) (l : List Char) (x : Char)
    (hx : x ∈ stripEnds c l) : x ∈ l := by
  unfold stripEnds at hx
  rw [List.mem_reverse] at hx
  have h1 := mem_of_dropWhile_mem _ _ _ hx
  rw [List.mem_reverse] at h1
  exact mem_of_dropWhile_mem _ _ _ h1

/-! ## Claims -/

/-- C1, counterexample: the Escaper does not treat the backslash, the
currency introducer `$`, or the parameter introducer `#` at all, so escaping
once leaves an unescaped dollar (and hash) in the result, contrary to the
claimed escape set and to the claimed consequence. -/
theorem C1_escape_counterexample :
    escape_latex ['$'] = ['$']
    ∧ countUnescaped '$' (escape_latex ['$']) = 1
    ∧ escape_latex ['#'] = ['#']
    ∧ countUnescaped '#' (escape_latex ['#']) = 1
    ∧ escape_latex ['\\'] = ['\\'] := by
  refine ⟨by decide, by decide, by decide, by decide, by decide⟩

/-- C1, amended: the Escaper rewrites exactly the four characters open
brace, close brace, ampersand, percent (in that order), prefixing each with
a backslash and leaving every other character — including backslash, dollar,
hash, tilde and caret — unchanged; consequently escaping once leaves no
unescaped ampersand and no unescaped percent in the result. -/
theorem C1_escaper_amended (s : List Char) :
    escape_latex s = escapeAll s
    ∧ countUnescaped '&' (escape_latex s) = 0
    ∧ countUnescaped '%' (escape_latex s) = 0 := by
  refine ⟨escape_latex_eq_escapeAll s, ?_, ?_⟩
  · rw [escape_latex_eq_escapeAll]
    exact countUnescaped_escapeAll_eq_zero '&' (by decide) s
  · rw [escape_latex_eq_escapeAll]
    exact countUnescaped_escapeAll_eq_zero '%' (by decide) s

/-- C2: for every input record the Assembler output is the fixed-order
concatenation of the static header, the Heading, Education, Experience,
Projects and Additional-Info blocks, and the static footer; and on the
minimal valid record the output contains exactly one document-class
declaration, exactly one content-start marker, exactly one content-end
marker, and equally many open and close braces. -/
theorem C2_assembler_output :
    (∀ r : ResumeData, generate_resume_latex r =
        generate_latex_header
        ++ generate_heading r.personal_info
        ++ generate_education r.education
        ++ generate_professional_experience r.professional_experience
        ++ generate_project_experience r.project_experience
        ++ generate_additional_information r.additional_information
        ++ generate_latex_footer)
    ∧ countSubstr (("\\documentclass").data) (generate_resume_latex minimalResume) = 1
    ∧ countSubstr (("\\begin\x7bdocument\x7d").data) (generate_resume_latex minimalResume) = 1
    ∧ countSubstr (("\\end\x7bdocument\x7d").data) (generate_resume_latex minimalResume) = 1
    ∧ countChar '\x7b' (generate_resume_latex minimalResume)
        = countChar '\x7d' (generate_resume_latex minimalResume) := by
  refine ⟨fun r => rfl, ?_, ?_, ?_, ?_⟩
  · rw [minimalDoc_eq_chunks, countSubstr_concatAll]; decide
  · rw [minimalDoc_eq_chunks, countSubstr_concatAll]; decide
  · rw [minimalDoc_eq_chunks, countSubstr_concatAll]; decide
  · rw [minimalDoc_eq_chunks, countChar_concatAll, countChar_concatAll]; decide

/-- C3, code-bug evidence: the comment strip regex removes from the FIRST
percent of each line — escaped or not — through the end of the line, so no
percent at all survives stripping and the unescaped-percent finding can
never fire; on the failing input (an escaped percent preceding an unescaped
percent on one line) the checker reports zero unescaped percents, while the
claim-worded strip (remove only the text following an unescaped percent)
leaves the unescaped percent to be flagged. -/
theorem C3_percent_check_dead :
    (∀ content, (validate_latex content).unescaped_percent = 0)
    ∧ (validate_latex c3FailingContent).unescaped_percent = 0
    ∧ 0 < countUnescaped '%' (claimStripComments c3FailingContent) := by
  refine ⟨validate_percent_zero, validate_percent_zero _, by decide⟩

/-- C4: when the content-start marker first occurs at index `d`, the checker
flags an ampersand in the content from the marker onwards exactly when some
position there holds an ampersand that is not preceded by a backslash and
not followed by a word character; and the document whose only ampersand
after the marker is in `&nbsp` is not flagged. -/
theorem C4_ampersand_heuristic (content : List Char) (d : Nat)
    (hd : findSubstr docStartMarker content = some d) :
    ((validate_latex content).unescaped_ampersand ≠ 0 ↔
      ∃ i, i < (content.drop d).length
        ∧ (content.drop d).getD i ' ' = '&'
        ∧ (i = 0 ∨ (content.drop d).getD (i - 1) ' ' ≠ '\\')
        ∧ isWordChar ((content.drop d).getD (i + 1) ' ') = false)
    ∧ (validate_latex nbspDoc).unescaped_ampersand = 0 := by
  constructor
  · have hamp : (validate_latex content).unescaped_ampersand
        = countUnescapedAmp (content.drop d) := by
      simp [validate_latex, hd]
    rw [hamp]
    exact countUnescapedAmp_pos_iff _
  · decide

/-- C4, witness: instantiated at the `&nbsp` document, whose content-start
marker is at index 0. -/
theorem C4_ampersand_heuristic_witness :
    ((validate_latex nbspDoc).unescaped_ampersand ≠ 0 ↔
      ∃ i, i < (nbspDoc.drop 0).length
        ∧ (nbspDoc.drop 0).getD i ' ' = '&'
        ∧ (i = 0 ∨ (nbspDoc.drop 0).getD (i - 1) ' ' ≠ '\\')
        ∧ isWordChar ((nbspDoc.drop 0).getD (i + 1) ' ') = false)
    ∧ (validate_latex nbspDoc).unescaped_ampersand = 0 :=
  C4_ampersand_heuristic nbspDoc 0 (by decide)

/-- C5: the Experience builder emits its fixed section opening, then one
block per entry in input order, then the list-closing line; an entry with an
empty description sequence contributes its subheading and a bare newline (no
bullet-list markup), an entry with a non-empty description contributes the
bullet-list opening, one bullet line per description in order, and the
closing; an entry with exactly one description yields exactly one bullet
line. -/
theorem C5_experience_builder :
    (∀ experiences, generate_professional_experience experiences =
        expSectionStart ++ concatAll (experiences.map expBlock)
          ++ ("  \\resumeSubHeadingListEnd\n\n").data)
    ∧ (∀ company location position period,
        expBlock { company := company, location := location, position := position
                 , period := period, description := [] } =
          expSubheading company location position period ++ ("\n").data)
    ∧ (∀ company location position period d ds,
        expBlock { company := company, location := location, position := position
                 , period := period, description := d :: ds } =
          expSubheading company location position period
            ++ ("\n        \\resumeItemListStart\n").data
            ++ concatAll ((d :: ds).map resumeItemLine)
            ++ ("        \\resumeItemListEnd\n").data)
    ∧ (∀ company location position period d,
        expBlock { company := company, location := location, position := position
                 , period := period, description := [d] } =
          expSubheading company location position period
            ++ ("\n        \\resumeItemListStart\n").data
            ++ resumeItemLine d
            ++ ("        \\resumeItemListEnd\n").data) := by
  refine ⟨fun experiences => ?_, fun c l p per => ?_,
    fun c l p per d ds => ?_, fun c l p per d => ?_⟩
  · unfold generate_professional_experience
    rw [foldl_append_concatAll]
  · simp [expBlock]
  · simp [expBlock, List.append_assoc]
  · simp [expBlock, concatAll, List.append_assoc]

/-- C6: the Projects builder emits its fixed section opening, then one block
per entry in input order, then the list-closing line; an entry whose
`description` key is absent contributes its project heading and a bare
newline (no bullet-list markup), while an entry whose key is present — even
with an empty sequence — contributes the bullet-list opening, one bullet
line per description in order, and the closing. -/
theorem C6_projects_builder :
    (∀ projects, generate_project_experience projects =
        projSectionStart ++ concatAll (projects.map projBlock)
          ++ ("    \\resumeSubHeadingListEnd\n\n").data)
    ∧ (∀ name period,
        projBlock { name := name, period := period, description := none } =
          projSubheading name period ++ ("\n").data)
    ∧ (∀ name period ds,
        projBlock { name := name, period := period, description := some ds } =
          projSubheading name period
            ++ ("\n          \\resumeItemListStart\n").data
            ++ concatAll (ds.map resumeItemLine)
            ++ ("          \\resumeItemListEnd\n").data) := by
  refine ⟨fun projects => ?_, fun name period => ?_, fun name period ds => ?_⟩
  · unfold generate_project_experience
    rw [foldl_append_concatAll]
  · simp [projBlock]
  · simp [projBlock, List.append_assoc]

/-- C7: the default output filename is the personal name with spaces turned
to hyphens, every character outside the allowed class turned to underscore,
and leading and trailing underscores trimmed, followed by `_resume.tex`; the
name `John Doe` yields `John-Doe_resume.tex`, and for every record the slug
part starts and ends with a non-underscore and holds only characters from
the allowed class or underscore. -/
theorem C7_output_filename :
    generate_output_filename johnDoeResume = ("John-Doe_resume.tex").data
    ∧ ∀ r : ResumeData, ∃ stem : List Char,
        generate_output_filename r = stem ++ ("_resume.tex").data
        ∧ stem.head? ≠ some '_'
        ∧ stem.reverse.head? ≠ some '_'
        ∧ ∀ ch ∈ stem, isFilenameChar ch = true ∨ ch = '_' := by
  constructor
  · decide
  · intro r
    refine ⟨stripEnds '_' ((replaceChar ' ' ['-'] r.personal_info.name.data).map
        (fun ch => if isFilenameChar ch then ch else '_')), rfl, ?_, ?_, ?_⟩
    · intro hx
      exact stripEnds_head_ne '_' _ '_' hx rfl
    · intro hx
      exact stripEnds_reverse_head_ne '_' _ '_' hx rfl
    · intro ch hch
      have hmem := mem_of_stripEnds_mem '_' _ ch hch
      rcases List.mem_map.mp hmem with ⟨y, _, rfl⟩
      by_cases hy : isFilenameChar y
      · left; simp [hy]
      · right; simp [hy]

/-- C8: every input-record error is fatal for the generation path — a
missing input file or malformed JSON exits with status 1 via
`load_resume_data`, and a record with a missing required field aborts
generation (the uncaught `KeyError` terminates the process with status 1) —
and in every such case no output document is written; when generation
succeeds the document is written and the exit status is 0. -/
theorem C8_input_errors_fatal :
    main_generate LoadInput.missingFile = { exit_code := 1, written_file := none }
    ∧ main_generate LoadInput.malformed = { exit_code := 1, written_file := none }
    ∧ (∀ d msg, generate_resume_latex_checked d = Except.error msg →
        main_generate (LoadInput.parsed d) = { exit_code := 1, written_file := none })
    ∧ (∀ d content, generate_resume_latex_checked d = Except.ok content →
        main_generate (LoadInput.parsed d) =
          { exit_code := 0, written_file := some content }) := by
  refine ⟨rfl, rfl, fun d msg h => ?_, fun d content h => ?_⟩
  · simp [main_generate, load_resume_data, h]
  · simp [main_generate, load_resume_data, h]

/-- C8, witness: the record lacking the required `name` field fails
generation with that key and produces exit status 1 with no file written. -/
theorem C8_input_errors_fatal_witness :
    generate_resume_latex_checked noNameRaw = Except.error "name"
    ∧ main_generate (LoadInput.parsed noNameRaw) =
        { exit_code := 1, written_file := none } :=
  ⟨rfl, C8_input_errors_fatal.2.2.1 noNameRaw "name" rfl⟩

/-- C9: the Escaper maps the empty string, and an absent value, to the empty
string, and is a total function: every input string yields a result
string. -/
theorem C9_escaper_total :
    escape_latex_opt none = []
    ∧ escape_latex_opt (some []) = []
    ∧ escape_latex [] = []
    ∧ ∀ s : List Char, ∃ r : List Char, escape_latex s = r :=
  ⟨rfl, rfl, rfl, fun s => ⟨escape_latex s, rfl⟩⟩

/-- C10: a project entry whose `description` key is present but empty
produces the bullet-list start and end markers with no item line between
them, whereas an experience entry with an empty description sequence
produces no bullet-list markup at all — the two builders choose different
policies for the empty case. -/
theorem C10_empty_description_policy :
    (∀ name period,
        projBlock { name := name, period := period, description := some [] } =
          projSubheading name period
            ++ ("\n          \\resumeItemListStart\n").data
            ++ ("          \\resumeItemListEnd\n").data)
    ∧ (∀ company location position period,
        expBlock { company := company, location := location, position := position
                 , period := period, description := [] } =
          expSubheading company location position period ++ ("\n").data) := by
  refine ⟨fun name period => ?_, fun c l p per => ?_⟩
  · simp [projBlock, concatAll, List.append_assoc]
  · simp [expBlock]

end Resume2Latex
